import Mathlib

/-!
Verification development for the travel-assistant backend
(`backend/orchestrator/query_parser.py`, `backend/orchestrator/travel_chat.py`).

The Python code is shallowly embedded:
* calendar dates are modelled by their proleptic-Gregorian day number (an `Int`),
  computed from year/month/day by `dateNum`; `datetime.date` arithmetic
  (`+ timedelta(days=n)`, comparisons, subtraction) becomes `Int` arithmetic;
* `Optional[T]` becomes `Option`, Python truthiness of each field type is made
  explicit (`optStrTruthy`, `optNatTruthy`, ...: `None`, `""`, `0` are falsy,
  `date` objects are always truthy);
* the wall-clock read `date.today()` becomes an explicit `today : YMD` argument;
* the two `while` loops of `generate_date_options` become fuel-indexed
  structural recursions, called with fuel strictly larger than the number of
  iterations the Python loop performs (the loop advances by `step ≥ 3` each
  iteration, the fuel is the full day-width of the window plus one);
* the external LLM calls (`parse_travel_query`, the chat agent run) are inputs:
  an oracle outcome `Option QueryParsingResult` (`none` = the call raised) and
  an opaque reply string.
-/

namespace TravelAssistant

/-! ## Calendar arithmetic (embedding of `datetime.date`) -/

/-- Gregorian leap-year test, as implemented by Python's `calendar`/`datetime`. -/
def isLeap (y : Nat) : Bool :=
  y % 4 == 0 && (y % 100 != 0 || y % 400 == 0)

/-- Number of days in month `m` of year `y` (`calendar.monthrange(y, m)[1]`). -/
def daysInMonth (y m : Nat) : Nat :=
  if m = 2 then (if isLeap y then 29 else 28)
  else if m = 4 ∨ m = 6 ∨ m = 9 ∨ m = 11 then 30
  else 31

/-- Days in all years strictly before year `y` (year 1 is the first year). -/
def daysBeforeYear (y : Nat) : Nat :=
  365 * (y - 1) + ((y - 1) / 4 - (y - 1) / 100 + (y - 1) / 400)

/-- Days in the months of year `y` strictly before month `m`. -/
def daysBeforeMonth (y m : Nat) : Nat :=
  (Finset.range (m - 1)).sum (fun i => daysInMonth y (i + 1))

/-- Day number of the calendar date `y-m-d`; `datetime.date` ordering and
`timedelta` arithmetic coincide with `Int` ordering and arithmetic on it. -/
def dateNum (y m d : Nat) : Int :=
  ((daysBeforeYear y + daysBeforeMonth y m + d : Nat) : Int)

/-- A concrete calendar date, used for the injected reference "today"
(the embedding of the `date.today()` read, which exposes `.year`, `.month`
and the date value itself). -/
structure YMD where
  year : Nat
  month : Nat
  day : Nat
deriving DecidableEq, Repr

/-- The day number of a reference date. -/
def YMD.num (t : YMD) : Int := dateNum t.year t.month t.day

/-! ## Python truthiness helpers -/

/-- Truthiness of `Optional[str]`: `None` and `""` are falsy. -/
def optStrTruthy : Option String → Bool
  | none => false
  | some s => !(s == "")

/-- Truthiness of `Optional[int]`: `None` and `0` are falsy. -/
def optNatTruthy : Option Nat → Bool
  | none => false
  | some n => n != 0

/-- Truthiness of `Optional[float]`: `None` and `0.0` are falsy. -/
def optRatTruthy : Option Rat → Bool
  | none => false
  | some q => q != 0

/-- Python `x or d` for an `Optional[int]` (`None` and `0` fall back to `d`). -/
def natOrDefault (o : Option Nat) (d : Nat) : Nat :=
  match o with
  | some n => if n = 0 then d else n
  | none => d

/-- Python `x or d` for an `Optional[str]` (`None` and `""` fall back to `d`). -/
def strOrDefault (o : Option String) (d : String) : String :=
  match o with
  | some s => if s = "" then d else s
  | none => d

/-- Python `range(start, stop, step)` for positive step, as a list. -/
def pyRange (start stop step : Nat) : List Nat :=
  (List.range ((stop - start + step - 1) / step)).map (fun k => start + k * step)

/-! ## Month-name parsing (embedding of `datetime.strptime(name, "%B")`) -/

/-- Per-character ASCII lowercasing, extensionally `String.toLower` (spelled
over the character list so that it reduces in the kernel). -/
def lowerString (s : String) : String :=
  String.mk (s.data.map Char.toLower)

/-- The twelve English month names, lowercased, in calendar order. -/
def monthNames : List String :=
  ["january", "february", "march", "april", "may", "june",
   "july", "august", "september", "october", "november", "december"]

/-- `datetime.strptime(s, "%B").month`: accepts exactly a full English month
name, case-insensitively, and nothing else (`ValueError` becomes `none`). -/
def parseMonth (s : String) : Option Nat :=
  (monthNames.findIdx? (fun n => n == lowerString s)).map (fun i => i + 1)

/-! ## Data model (`query_parser.py`) -/

/-- `TravelQueryDetails` (query_parser.py lines 25-37). Dates are day numbers;
`budget : Optional[float]` is modelled over `ℚ`. -/
structure TravelQueryDetails where
  origin : Option String := none
  destination : String
  budget : Option Rat := none
  trip_length_days : Option Nat := none
  earliest_start_date : Option Int := none
  latest_start_date : Option Int := none
  specific_month : Option String := none
  travelers : Nat := 1
  flexible_dates : Bool := false
  preferred_airlines : List String := []
  max_stops : Option Nat := none
deriving DecidableEq, Repr

/-- `FlightSearchQuery` (query_parser.py lines 40-49). -/
structure FlightSearchQuery where
  origin : String
  destination : String
  depart_date : Int
  return_date : Int
  budget : Option Rat := none
  travelers : Nat := 1
  max_stops : Option Nat := none
  preferred_airlines : List String := []
deriving DecidableEq, Repr

/-- `QueryParsingResult` (query_parser.py lines 52-57): the structured output
of the extraction oracle, trusted wholesale by the orchestrator. -/
structure QueryParsingResult where
  details : TravelQueryDetails
  search_queries : List FlightSearchQuery := []
  confidence : Rat := 1
  missing_info : List String := []
deriving DecidableEq, Repr

/-! ## `generate_date_options` (query_parser.py lines 93-155) -/

/-- The `while` loop of the specific-month branch (query_parser.py lines
125-130): enumerate starts from `current` at cadence `step` while
`current ≤ month_end - trip_length`, keeping `(current, current + trip_length)`
when `current + trip_length ≤ month_end`.  Structural recursion on fuel; every
call site passes fuel larger than the iteration count. -/
def month_loop : Nat → Int → Int → Nat → Nat → List (Int × Int)
  | 0, _, _, _, _ => []
  | fuel + 1, current, month_end, trip_length, step =>
    if current ≤ month_end - (trip_length : Int) then
      (if current + (trip_length : Int) ≤ month_end then
        [(current, current + (trip_length : Int))] else [])
      ++ month_loop fuel (current + (step : Int)) month_end trip_length step
    else []

/-- The `while` loop of the explicit-range branch (query_parser.py lines
140-143): starts every 3 days from `current` while `current ≤ latest_start`,
each pair spanning `trip_length` days. -/
def range_loop : Nat → Int → Int → Nat → List (Int × Int)
  | 0, _, _, _ => []
  | fuel + 1, current, latest_start, trip_length =>
    if current ≤ latest_start then
      (current, current + (trip_length : Int))
        :: range_loop fuel (current + 3) latest_start trip_length
    else []

/-- `generate_date_options(details)` (query_parser.py lines 93-155), with the
`date.today()` wall-clock read exposed as the `today` argument.  Note that when
the month name fails to parse, the caught `ValueError` leaves `date_pairs`
empty and the `elif`/`else` branches are *not* taken: the function returns
`[]`. -/
def generate_date_options (details : TravelQueryDetails) (today : YMD) :
    List (Int × Int) :=
  if optStrTruthy details.specific_month then
    match parseMonth (details.specific_month.getD "") with
    | some month_num =>
      let year := if month_num < today.month then today.year + 1 else today.year
      let month_start := dateNum year month_num 1
      let next_month :=
        if month_num = 12 then dateNum (year + 1) 1 1 else dateNum year (month_num + 1) 1
      let month_end := next_month - 1
      let trip_length := natOrDefault details.trip_length_days 3
      let step := if trip_length ≤ 3 then 5 else 3
      month_loop ((month_end + 1 - month_start).toNat + 1) month_start month_end
        trip_length step
    | none => []
  else if details.earliest_start_date.isSome && optNatTruthy details.trip_length_days then
    let earliest := details.earliest_start_date.getD 0
    let latest_start :=
      match details.latest_start_date with
      | some l => l
      | none => earliest + 14
    let trip_length := details.trip_length_days.getD 0
    range_loop ((latest_start + 1 - earliest).toNat + 1) earliest latest_start trip_length
  else
    let trip_length := natOrDefault details.trip_length_days 3
    let future_start := today.num + 30
    (pyRange 0 30 7).map (fun i => (future_start + (i : Int), future_start + (i : Int) + (trip_length : Int)))

/-- `create_flight_search_queries(details)` (query_parser.py lines 158-179):
one query per generated date pair, origin defaulting to `"SEA"`. -/
def create_flight_search_queries (details : TravelQueryDetails) (today : YMD) :
    List FlightSearchQuery :=
  let origin := strOrDefault details.origin "SEA"
  (generate_date_options details today).map (fun p =>
    { origin := origin
      destination := details.destination
      depart_date := p.1
      return_date := p.2
      budget := details.budget
      travelers := details.travelers
      max_stops := details.max_stops
      preferred_airlines := details.preferred_airlines })

/-! ## Conversation state and the merge engine (`travel_chat.py`) -/

/-- `ConversationState` (travel_chat.py lines 39-48).  Transcript entries are
(role, content) pairs; the wall-clock timestamps are outside the model. -/
structure ConversationState where
  session_id : String
  travel_details : Option TravelQueryDetails := none
  original_query : Option String := none
  missing_info : List String := []
  queries_generated : Bool := false
  search_queries : List FlightSearchQuery := []
  last_updated_field : Option String := none
  conversation_history : List (String × String) := []
deriving DecidableEq, Repr

/-- One entry of the boundary response's `search_queries` list (travel_chat.py
lines 504-514): only origin, destination, the two dates, budget and travelers
are exposed. -/
structure ResponseQuery where
  origin : String
  destination : String
  depart_date : Int
  return_date : Int
  budget : Option Rat := none
  travelers : Nat := 1
deriving DecidableEq, Repr

/-- `ChatResponse` (travel_chat.py lines 51-57). -/
structure ChatResponse where
  message : String
  missing_info : List String := []
  has_complete_details : Bool := false
  search_queries : List ResponseQuery := []
  session_id : String
deriving DecidableEq, Repr

/-- `ConversationState(session_id=session_id)` (travel_chat.py line 350). -/
def newConversationState (sid : String) : ConversationState :=
  { session_id := sid }

/-- `TravelQueryDetails(destination="")` (travel_chat.py line 371). -/
def emptyDetails : TravelQueryDetails :=
  { destination := "" }

/-- The hard-coded missing list installed when the initial parse raises
(travel_chat.py line 373). -/
def defaultMissing : List String :=
  ["destination", "trip_length_days", "travel_dates", "origin", "budget"]

/-- Destination block of the follow-up merge (travel_chat.py lines 385-392).
`state.missing_info.remove(f)` deletes the first occurrence, i.e. `List.erase`;
the membership guard makes it a no-op when absent, which `List.erase` already
is. -/
def mergeStepDestination (e : TravelQueryDetails)
    (s : TravelQueryDetails × List String) : TravelQueryDetails × List String :=
  if e.destination ≠ "" ∧ (s.1.destination = "" ∨ e.destination ≠ s.1.destination) then
    ({ s.1 with destination := e.destination }, s.2.erase "destination")
  else s

/-- Origin block of the follow-up merge (travel_chat.py lines 395-402). -/
def mergeStepOrigin (e : TravelQueryDetails)
    (s : TravelQueryDetails × List String) : TravelQueryDetails × List String :=
  if optStrTruthy e.origin = true ∧
      (optStrTruthy s.1.origin = false ∨ e.origin ≠ s.1.origin) then
    ({ s.1 with origin := e.origin }, s.2.erase "origin")
  else s

/-- Trip-length block of the follow-up merge (travel_chat.py lines 405-412). -/
def mergeStepTripLength (e : TravelQueryDetails)
    (s : TravelQueryDetails × List String) : TravelQueryDetails × List String :=
  if optNatTruthy e.trip_length_days = true ∧
      (optNatTruthy s.1.trip_length_days = false ∨
        e.trip_length_days ≠ s.1.trip_length_days) then
    ({ s.1 with trip_length_days := e.trip_length_days }, s.2.erase "trip_length_days")
  else s

/-- Month / start-date block of the follow-up merge (travel_chat.py lines
415-434): either date field updating sets `date_fields_updated`, which then
erases `"travel_dates"` from the missing list. -/
def mergeStepDates (e : TravelQueryDetails)
    (s : TravelQueryDetails × List String) : TravelQueryDetails × List String :=
  let c1 : Prop := optStrTruthy e.specific_month = true ∧
    (optStrTruthy s.1.specific_month = false ∨ e.specific_month ≠ s.1.specific_month)
  let td1 := if c1 then { s.1 with specific_month := e.specific_month } else s.1
  let c2 : Prop := e.earliest_start_date.isSome = true ∧
    (td1.earliest_start_date = none ∨ e.earliest_start_date ≠ td1.earliest_start_date)
  let td2 := if c2 then { td1 with earliest_start_date := e.earliest_start_date } else td1
  (td2, if c1 ∨ c2 then s.2.erase "travel_dates" else s.2)

/-- Budget block of the follow-up merge (travel_chat.py lines 437-444). -/
def mergeStepBudget (e : TravelQueryDetails)
    (s : TravelQueryDetails × List String) : TravelQueryDetails × List String :=
  if optRatTruthy e.budget = true ∧
      (optRatTruthy s.1.budget = false ∨ e.budget ≠ s.1.budget) then
    ({ s.1 with budget := e.budget }, s.2.erase "budget")
  else s

/-- Travelers block of the follow-up merge (travel_chat.py lines 447-454). -/
def mergeStepTravelers (e : TravelQueryDetails)
    (s : TravelQueryDetails × List String) : TravelQueryDetails × List String :=
  if 1 < e.travelers ∧ (s.1.travelers = 1 ∨ e.travelers ≠ s.1.travelers) then
    ({ s.1 with travelers := e.travelers }, s.2.erase "travelers")
  else s

/-- The whole follow-up merge (travel_chat.py lines 375-457): field blocks
applied in source order to the stored details and stored missing list, with the
extracted details `e`. -/
def merge_follow_up (td : TravelQueryDetails) (missing : List String)
    (e : TravelQueryDetails) : TravelQueryDetails × List String :=
  mergeStepTravelers e (mergeStepBudget e (mergeStepDates e
    (mergeStepTripLength e (mergeStepOrigin e (mergeStepDestination e (td, missing))))))

/-- The oracle phase of `process_message` (travel_chat.py lines 352-461):
initial turn adopts the parse result wholesale (or the hard-coded defaults when
the call raised); follow-up turns run the per-field merge (or change nothing
when the call raised). -/
def apply_oracle (state0 : ConversationState) (user_message : String)
    (oracle : Option QueryParsingResult) : ConversationState :=
  match state0.travel_details with
  | none =>
    match oracle with
    | some r =>
      let s := { state0 with
        original_query := some user_message
        travel_details := some r.details
        missing_info := r.missing_info }
      if r.missing_info = [] then
        { s with search_queries := r.search_queries, queries_generated := true }
      else s
    | none =>
      { state0 with
        original_query := some user_message
        travel_details := some emptyDetails
        missing_info := defaultMissing }
  | some td =>
    match oracle with
    | some r =>
      let m := merge_follow_up td state0.missing_info r.details
      { state0 with travel_details := some m.1, missing_info := m.2 }
    | none => state0

/-- The query-generation phase (travel_chat.py lines 483-489): when nothing is
missing and queries were not yet generated, generate and latch the flag. -/
def generate_if_ready (today : YMD) (s : ConversationState) : ConversationState :=
  if s.missing_info = [] ∧ s.queries_generated = false then
    { s with
      search_queries :=
        create_flight_search_queries (s.travel_details.getD emptyDetails) today
      queries_generated := true }
  else s

/-- The boundary response construction (travel_chat.py lines 495-514). -/
def mk_response (reply : String) (s : ConversationState) : ChatResponse :=
  { message := reply
    missing_info := s.missing_info
    has_complete_details := decide (s.missing_info = []) && s.queries_generated
    search_queries :=
      if s.queries_generated && !s.search_queries.isEmpty then
        (s.search_queries.take 5).map (fun q =>
          { origin := q.origin
            destination := q.destination
            depart_date := q.depart_date
            return_date := q.return_date
            budget := q.budget
            travelers := q.travelers })
      else []
    session_id := s.session_id }

/-- One `process_message` turn (travel_chat.py lines 332-516). `stored` is the
`SESSION_STORAGE` lookup result (`none` = unseen session id), `oracle` the
outcome of the external `parse_travel_query` call (`none` = it raised), `reply`
the external chat agent's output, `today` the wall clock.  Returns the state
written back to storage and the boundary response. -/
def process_message_step (stored : Option ConversationState) (session_id : String)
    (user_message : String) (oracle : Option QueryParsingResult)
    (reply : String) (today : YMD) : ConversationState × ChatResponse :=
  let state0 := stored.getD (newConversationState session_id)
  let state1 := apply_oracle state0 user_message oracle
  let state2 := { state1 with
    conversation_history :=
      state1.conversation_history ++ [("user", user_message), ("assistant", reply)] }
  let state3 := generate_if_ready today state2
  (state3, mk_response reply state3)

/-! ## Helper lemmas -/

/-- Every pair produced by the month-branch loop starts no earlier than the
initial cursor, spans exactly the trip length, and ends inside the window. -/
lemma month_loop_mem (fuel : Nat) (current month_end : Int) (trip_length step : Nat)
    (p : Int × Int) (hp : p ∈ month_loop fuel current month_end trip_length step) :
    current ≤ p.1 ∧ p.2 = p.1 + (trip_length : Int) ∧ p.2 ≤ month_end := by
  induction fuel generalizing current with
  | zero => simp [month_loop] at hp
  | succ n ih =>
    rw [month_loop] at hp
    split at hp
    · rcases List.mem_append.1 hp with h1 | h2
      · split at h1
        · simp only [List.mem_singleton] at h1
          subst h1
          exact ⟨le_refl _, rfl, by assumption⟩
        · simp at h1
      · obtain ⟨h3, h4, h5⟩ := ih (current + step) h2
        exact ⟨by omega, h4, h5⟩
    · simp at hp

/-- Every pair produced by the explicit-range loop spans exactly the trip
length. -/
lemma range_loop_mem (fuel : Nat) (current latest : Int) (trip : Nat) (p : Int × Int)
    (hp : p ∈ range_loop fuel current latest trip) : p.2 = p.1 + (trip : Int) := by
  induction fuel generalizing current with
  | zero => simp [range_loop] at hp
  | succ n ih =>
    rw [range_loop] at hp
    split at hp
    · rcases List.mem_cons.1 hp with h1 | h2
      · subst h1; rfl
      · exact ih _ h2
    · simp at hp

/-- A parseable month name parses to a number between 1 and 12. -/
lemma parseMonth_range {s : String} {mn : Nat} (h : parseMonth s = some mn) :
    1 ≤ mn ∧ mn ≤ 12 := by
  unfold parseMonth at h
  rw [Option.map_eq_some'] at h
  obtain ⟨i, hi, rfl⟩ := h
  have hlen := (List.findIdx?_eq_some_iff_findIdx_eq.mp hi).1
  simp [monthNames] at hlen
  omega

/-- A parseable month name is not the empty string. -/
lemma parseMonth_ne_empty {s : String} {mn : Nat} (h : parseMonth s = some mn) :
    s ≠ "" := by
  rintro rfl
  rw [(by decide : parseMonth "" = none)] at h
  exact Option.noConfusion h

/-- A non-empty optional string is truthy. -/
lemma optStrTruthy_some_of_ne {s : String} (h : s ≠ "") :
    optStrTruthy (some s) = true := by
  simp [optStrTruthy, h]

/-- Day count of the years before year `y+1` in terms of year `y`. -/
lemma daysBeforeYear_succ (y : Nat) (hy : 1 ≤ y) :
    daysBeforeYear (y + 1) = daysBeforeYear y + 365 + (if isLeap y then 1 else 0) := by
  have h : isLeap y = true ↔ (y % 4 = 0 ∧ (y % 100 ≠ 0 ∨ y % 400 = 0)) := by
    simp [isLeap]
  by_cases hl : isLeap y = true
  · rw [if_pos hl]
    have h2 := h.mp hl
    unfold daysBeforeYear
    omega
  · rw [if_neg hl]
    have h2 : ¬ (y % 4 = 0 ∧ (y % 100 ≠ 0 ∨ y % 400 = 0)) := fun c => hl (h.mpr c)
    unfold daysBeforeYear
    omega

/-- Day count of the months before month `m+1` in terms of month `m`. -/
lemma daysBeforeMonth_succ (y m : Nat) (hm : 1 ≤ m) :
    daysBeforeMonth y (m + 1) = daysBeforeMonth y m + daysInMonth y m := by
  obtain ⟨k, rfl⟩ : ∃ k, m = k + 1 := ⟨m - 1, by omega⟩
  unfold daysBeforeMonth
  simp [Finset.sum_range_succ]

/-- The eleven months before December total 334 days (335 in a leap year). -/
lemma daysBeforeMonth_twelve (y : Nat) :
    daysBeforeMonth y 12 = 334 + (if isLeap y then 1 else 0) := by
  by_cases hl : isLeap y = true <;>
    simp [daysBeforeMonth, daysInMonth, Finset.sum_range_succ, hl]

/-- The `month_end` computed by the code (day before the first of the next
month) is the last calendar day of the month. -/
lemma month_end_eq (y m : Nat) (hy : 1 ≤ y) (hm1 : 1 ≤ m) (hm2 : m ≤ 12) :
    (if m = 12 then dateNum (y + 1) 1 1 else dateNum y (m + 1) 1) - 1 =
      dateNum y m (daysInMonth y m) := by
  by_cases h12 : m = 12
  · subst h12
    rw [if_pos rfl]
    unfold dateNum
    rw [daysBeforeYear_succ y hy, daysBeforeMonth_twelve]
    have h0 : daysBeforeMonth (y + 1) 1 = 0 := by simp [daysBeforeMonth]
    have hD : daysInMonth y 12 = 31 := by simp [daysInMonth]
    rw [h0, hD]
    split_ifs <;> push_cast <;> omega
  · rw [if_neg h12]
    unfold dateNum
    rw [daysBeforeMonth_succ y m hm1]
    push_cast
    omega

/-- The destination block only ever erases from the missing list. -/
lemma mergeStepDestination_sublist (e : TravelQueryDetails)
    (s : TravelQueryDetails × List String) :
    (mergeStepDestination e s).2.Sublist s.2 := by
  unfold mergeStepDestination
  split
  · exact List.erase_sublist _ _
  · exact List.Sublist.refl _

/-- The origin block only ever erases from the missing list. -/
lemma mergeStepOrigin_sublist (e : TravelQueryDetails)
    (s : TravelQueryDetails × List String) :
    (mergeStepOrigin e s).2.Sublist s.2 := by
  unfold mergeStepOrigin
  split
  · exact List.erase_sublist _ _
  · exact List.Sublist.refl _

/-- The trip-length block only ever erases from the missing list. -/
lemma mergeStepTripLength_sublist (e : TravelQueryDetails)
    (s : TravelQueryDetails × List String) :
    (mergeStepTripLength e s).2.Sublist s.2 := by
  unfold mergeStepTripLength
  split
  · exact List.erase_sublist _ _
  · exact List.Sublist.refl _

/-- Erasing under a conditional yields a sublist either way. -/
lemma ite_erase_sublist (c : Prop) [Decidable c] (a : String) (l : List String) :
    (if c then l.erase a else l).Sublist l := by
  split
  · exact List.erase_sublist _ _
  · exact List.Sublist.refl _

/-- The dates block only ever erases from the missing list. -/
lemma mergeStepDates_sublist (e : TravelQueryDetails)
    (s : TravelQueryDetails × List String) :
    (mergeStepDates e s).2.Sublist s.2 := by
  unfold mergeStepDates
  dsimp only
  exact ite_erase_sublist _ _ _

/-- The budget block only ever erases from the missing list. -/
lemma mergeStepBudget_sublist (e : TravelQueryDetails)
    (s : TravelQueryDetails × List String) :
    (mergeStepBudget e s).2.Sublist s.2 := by
  unfold mergeStepBudget
  split
  · exact List.erase_sublist _ _
  · exact List.Sublist.refl _

/-- The travelers block only ever erases from the missing list. -/
lemma mergeStepTravelers_sublist (e : TravelQueryDetails)
    (s : TravelQueryDetails × List String) :
    (mergeStepTravelers e s).2.Sublist s.2 := by
  unfold mergeStepTravelers
  split
  · exact List.erase_sublist _ _
  · exact List.Sublist.refl _

/-- The follow-up merge only erases entries from the stored missing list. -/
lemma merge_follow_up_missing_sublist (td : TravelQueryDetails) (missing : List String)
    (e : TravelQueryDetails) : (merge_follow_up td missing e).2.Sublist missing := by
  unfold merge_follow_up
  exact ((((((mergeStepTravelers_sublist e _).trans
    (mergeStepBudget_sublist e _)).trans
    (mergeStepDates_sublist e _)).trans
    (mergeStepTripLength_sublist e _)).trans
    (mergeStepOrigin_sublist e _)).trans
    (mergeStepDestination_sublist e _))

/-- In the default branch (no usable month, no usable explicit range) the
generator returns exactly the 5 pairs of `range(0, 30, 7)`. -/
lemma generate_default_length (details : TravelQueryDetails) (today : YMD)
    (h1 : optStrTruthy details.specific_month = false)
    (h2 : (details.earliest_start_date.isSome && optNatTruthy details.trip_length_days)
        = false) :
    (generate_date_options details today).length = 5 := by
  unfold generate_date_options
  rw [h1, h2]
  simp only [Bool.false_eq_true, if_false]
  rw [List.length_map]
  decide

/-! ## Spec-side predicates and concrete scenario values -/

/-- Modelled from the spec: the critical tier of `MissingFieldSet` in its fixed
priority order — destination, temporal constraint (stored under the identifier
`"travel_dates"`), trip length.  The remaining identifiers (origin, budget,
travelers) are the optional tier. -/
def criticalFields : List String :=
  ["destination", "travel_dates", "trip_length_days"]

/-- All pairs of a list start no earlier than `lo` and end no later than `hi`. -/
def pairsWithin (lo hi : Int) (l : List (Int × Int)) : Prop :=
  ∀ p ∈ l, lo ≤ p.1 ∧ p.2 ≤ hi

/-- All pairs of a list span exactly `n` days. -/
def pairsSpan (n : Int) (l : List (Int × Int)) : Prop :=
  ∀ p ∈ l, p.2 - p.1 = n

/-- All queries of a list carry the placeholder origin `"SEA"`. -/
def allOriginSEA (l : List FlightSearchQuery) : Prop :=
  ∀ q ∈ l, q.origin = "SEA"

/-- Reference date 2025-01-01 (Scenario 1's injected "today"). -/
def jan1_2025 : YMD := ⟨2025, 1, 1⟩

/-- A stored intent that knows only the destination Paris. -/
def intentParis : TravelQueryDetails := { destination := "Paris" }

/-- A stored intent with an empty (unknown) destination. -/
def intentNoDest : TravelQueryDetails := { destination := "" }

/-- Scenario 1's intent: Seattle, 3 days, June. -/
def seattleJune : TravelQueryDetails :=
  { destination := "Seattle", trip_length_days := some 3, specific_month := some "June" }

/-- A 4-day July intent (July has 31 days, cadence 3). -/
def julyTrip4 : TravelQueryDetails :=
  { destination := "Rome", trip_length_days := some 4, specific_month := some "July" }

/-- An intent with no temporal hint and no trip length. -/
def plainIntent : TravelQueryDetails := { destination := "Hawaii" }

/-- An intent whose month hint is not a parseable month name. -/
def badMonthIntent : TravelQueryDetails :=
  { destination := "Tokyo", specific_month := some "Juneuary" }

/-- A critically complete intent: Paris, 3 days, June. -/
def tdParisJune : TravelQueryDetails :=
  { destination := "Paris", trip_length_days := some 3, specific_month := some "June" }

/-- A previously generated (about-to-be-stale) query for Paris. -/
def staleQuery : FlightSearchQuery :=
  { origin := "SEA", destination := "Paris", depart_date := 0, return_date := 3 }

/-- A session in the critical-complete state with generated queries. -/
def sessionCritComplete : ConversationState :=
  { session_id := "s1", travel_details := some tdParisJune, missing_info := [],
    queries_generated := true, search_queries := [staleQuery] }

/-- An extraction result that contradicts the stored destination. -/
def oracleRome : QueryParsingResult := { details := { destination := "Rome" } }

/-- A follow-up session still missing only the optional budget field. -/
def sessionBudgetMissing : ConversationState :=
  { session_id := "s2", travel_details := some tdParisJune, missing_info := ["budget"] }

/-- A session missing only the optional budget, with queries generated. -/
def sessionOptionalMissing : ConversationState :=
  { session_id := "s3", travel_details := some tdParisJune, missing_info := ["budget"],
    queries_generated := true, search_queries := [staleQuery] }

/-! ## Claim C1 -/

/-- Claim C1, counterexample: after a follow-up merge the stored missing list is
not the value of any pure function of the current merged intent — two sessions
whose merges yield the identical merged intent end with different stored
missing lists (the extracted destination equals the stored one in the second
session, so the update condition fails and `"destination"` is never erased).
Hence it cannot equal a from-scratch recomputation from the merged intent. -/
theorem C1_counterexample :
    (merge_follow_up intentNoDest ["destination"] intentParis).1 =
      (merge_follow_up intentParis ["destination"] intentParis).1 ∧
    (merge_follow_up intentNoDest ["destination"] intentParis).2 ≠
      (merge_follow_up intentParis ["destination"] intentParis).2 := by
  decide

/-- Claim C1, amended: the stored missing list is maintained incrementally, by
erasing individual entries from the previously stored list — after every
follow-up merge the stored list is a sublist of the previous one, and it is not
recomputed from (nor is it a function of) the current merged intent. -/
theorem C1_amended_incremental (td : TravelQueryDetails) (missing : List String)
    (e : TravelQueryDetails) : (merge_follow_up td missing e).2.Sublist missing :=
  merge_follow_up_missing_sublist td missing e

/-! ## Claim C2 -/

/-- Claim C2, counterexample: a session in the critical-complete state whose
follow-up merge contradicts the stored destination (Paris becomes Rome) keeps
`queries_generated = true` and keeps the stale Paris query — nothing is reset
or discarded, contrary to the claim. -/
theorem C2_counterexample :
    ((process_message_step (some sessionCritComplete) "s1" "go to Rome instead"
        (some oracleRome) "reply" jan1_2025).1.travel_details.map
        (fun td => td.destination) = some "Rome") ∧
    (process_message_step (some sessionCritComplete) "s1" "go to Rome instead"
        (some oracleRome) "reply" jan1_2025).1.queries_generated = true ∧
    (process_message_step (some sessionCritComplete) "s1" "go to Rome instead"
        (some oracleRome) "reply" jan1_2025).1.search_queries = [staleQuery] ∧
    [staleQuery] ≠ ([] : List FlightSearchQuery) := by
  decide

/-- Claim C2, amended: once `queries_generated` is true it remains true after
every further processed message, and the stored `search_queries` are never
discarded or replaced, even when the merge changes a critical field such as the
destination. -/
theorem C2_amended_no_reset (s : ConversationState) (sid msg reply : String)
    (oracle : Option QueryParsingResult) (today : YMD)
    (h1 : s.travel_details.isSome = true) (h2 : s.queries_generated = true) :
    (process_message_step (some s) sid msg oracle reply today).1.queries_generated
      = true ∧
    (process_message_step (some s) sid msg oracle reply today).1.search_queries
      = s.search_queries := by
  obtain ⟨td, htd⟩ := Option.isSome_iff_exists.mp h1
  unfold process_message_step generate_if_ready apply_oracle
  cases oracle <;> simp [htd, h2]

/-- Claim C2, amended, witness at a concrete critical-complete session. -/
theorem C2_amended_witness :
    (process_message_step (some sessionCritComplete) "s1" "m" none "r"
      jan1_2025).1.queries_generated = true ∧
    (process_message_step (some sessionCritComplete) "s1" "m" none "r"
      jan1_2025).1.search_queries = sessionCritComplete.search_queries :=
  C2_amended_no_reset sessionCritComplete "s1" "m" "r" none jan1_2025 rfl rfl

/-! ## Claim C3 -/

/-- Claim C3: for every parseable month name and every reference date, every
generated date pair lies between the first and the last calendar day of that
month, taken in the current year, or the next year when the month has already
elapsed relative to the reference date; and every pair spans exactly the trip
length in effect (the stored one, or the default 3). -/
theorem C3_month_window (details : TravelQueryDetails) (today : YMD) (name : String)
    (mn : Nat) (hname : details.specific_month = some name)
    (hmn : parseMonth name = some mn) (hy : 1 ≤ today.year) :
    pairsWithin
      (dateNum (if mn < today.month then today.year + 1 else today.year) mn 1)
      (dateNum (if mn < today.month then today.year + 1 else today.year) mn
        (daysInMonth (if mn < today.month then today.year + 1 else today.year) mn))
      (generate_date_options details today) ∧
    pairsSpan ((natOrDefault details.trip_length_days 3 : Nat) : Int)
      (generate_date_options details today) := by
  obtain ⟨hm1, hm2⟩ := parseMonth_range hmn
  have hne := parseMonth_ne_empty hmn
  have ht : optStrTruthy details.specific_month = true := by
    rw [hname]; exact optStrTruthy_some_of_ne hne
  have hy2 : 1 ≤ (if mn < today.month then today.year + 1 else today.year) := by
    split <;> omega
  have hme := month_end_eq (if mn < today.month then today.year + 1 else today.year)
    mn hy2 hm1 hm2
  unfold generate_date_options
  rw [if_pos ht, hname]
  simp only [Option.getD_some]
  rw [hmn, ← hme]
  constructor
  · intro p hp
    obtain ⟨ha, hb, hc⟩ := month_loop_mem _ _ _ _ _ p hp
    exact ⟨ha, hc⟩
  · intro p hp
    obtain ⟨ha, hb, hc⟩ := month_loop_mem _ _ _ _ _ p hp
    omega

/-- Claim C3, witness: Scenario 1 — Seattle, 3 days, June, today 2025-01-01:
all pairs lie within 2025-06-01..2025-06-30 and span exactly 3 days. -/
theorem C3_witness :
    pairsWithin (dateNum 2025 6 1) (dateNum 2025 6 30)
      (generate_date_options seattleJune jan1_2025) ∧
    pairsSpan 3 (generate_date_options seattleJune jan1_2025) := by
  have h := C3_month_window seattleJune jan1_2025 "June" 6 rfl (by decide) (by decide)
  simpa [jan1_2025, daysInMonth, isLeap, natOrDefault] using h

/-! ## Claim C4 -/

/-- Claim C4, counterexample: a 4-day trip in July (31 days, cadence 3) makes
the generator return 9 date pairs for the single destination, exceeding the
claimed cap of 8; no subsampling happens. -/
theorem C4_counterexample :
    (generate_date_options julyTrip4 jan1_2025).length = 9 ∧
    8 < (generate_date_options julyTrip4 jan1_2025).length := by
  decide

/-- Claim C4, amended: the generator enumerates start dates at a fixed cadence
with no cap (the count can exceed 8, for example 9 pairs for a 4-day July
trip, and can be 0); only the default branch — no usable month and no usable
explicit range — always returns exactly 5 pairs per destination.  The boundary
response is separately truncated to the first five queries from the front. -/
theorem C4_amended_default_window (details : TravelQueryDetails) (today : YMD)
    (h1 : optStrTruthy details.specific_month = false)
    (h2 : (details.earliest_start_date.isSome && optNatTruthy details.trip_length_days)
        = false) :
    (generate_date_options details today).length = 5 :=
  generate_default_length details today h1 h2

/-- Claim C4, amended, witness at a concrete intent with no temporal hint. -/
theorem C4_amended_witness :
    (generate_date_options plainIntent jan1_2025).length = 5 :=
  C4_amended_default_window plainIntent jan1_2025 rfl rfl

/-! ## Claim C5 -/

/-- Claim C5: an unparseable month name does not raise (the `ValueError` is
caught), but because the fallback `pass` sits inside the `if` branch, the
`elif`/`else` default-window branches are skipped and the generator returns the
empty list — not the 5-pair default-window result the same intent without the
month hint would get. -/
theorem C5_unparseable_month (details : TravelQueryDetails) (today : YMD) (m : String)
    (h1 : details.specific_month = some m) (h2 : m ≠ "") (h3 : parseMonth m = none)
    (h4 : (details.earliest_start_date.isSome && optNatTruthy details.trip_length_days)
        = false) :
    generate_date_options details today = [] ∧
    (generate_date_options { details with specific_month := none } today).length = 5 := by
  constructor
  · unfold generate_date_options
    rw [if_pos (by rw [h1]; exact optStrTruthy_some_of_ne h2), h1]
    simp only [Option.getD_some]
    rw [h3]
  · exact generate_default_length _ _ rfl h4

/-- Claim C5, witness: the concrete intent with month "Juneuary" yields no
date pairs at all, while the same intent without the month yields 5. -/
theorem C5_witness :
    generate_date_options badMonthIntent jan1_2025 = [] ∧
    (generate_date_options { badMonthIntent with specific_month := none }
      jan1_2025).length = 5 :=
  C5_unparseable_month badMonthIntent jan1_2025 "Juneuary" rfl (by decide) (by decide) rfl

/-! ## Claim C6 -/

/-- Claim C6, counterexample: when the oracle call throws on a follow-up turn,
the previously stored missing list (here just `["budget"]`) is kept unchanged —
the session is *not* left with the conservative all-critical default set. -/
theorem C6_counterexample :
    (process_message_step (some sessionBudgetMissing) "s2" "hi" none "r"
      jan1_2025).1.missing_info = ["budget"] ∧
    (process_message_step (some sessionBudgetMissing) "s2" "hi" none "r"
      jan1_2025).1.missing_info ≠ defaultMissing := by
  decide

/-- Claim C6, amended: an oracle failure never propagates and never changes the
merged intent; the conservative default missing set (all critical fields plus
origin and budget) is installed only when the session had no intent yet (the
initial turn); on a follow-up turn the previously stored missing list is kept
unchanged. -/
theorem C6_amended_oracle_failure (stored : Option ConversationState)
    (sid msg reply : String) (today : YMD) :
    ((stored.getD (newConversationState sid)).travel_details = none →
      (process_message_step stored sid msg none reply today).1.travel_details
        = some emptyDetails ∧
      (process_message_step stored sid msg none reply today).1.missing_info
        = defaultMissing) ∧
    (∀ td, (stored.getD (newConversationState sid)).travel_details = some td →
      (process_message_step stored sid msg none reply today).1.travel_details
        = some td ∧
      (process_message_step stored sid msg none reply today).1.missing_info
        = (stored.getD (newConversationState sid)).missing_info) := by
  constructor
  · intro h
    simp only [process_message_step, apply_oracle, generate_if_ready]
    rw [h]
    simp [defaultMissing]
  · intro td h
    simp only [process_message_step, apply_oracle, generate_if_ready]
    rw [h]
    split <;> simp [h]

/-- Claim C6, amended, witness: a brand-new session whose first oracle call
throws ends with the empty intent and the default missing set. -/
theorem C6_amended_witness :
    (process_message_step none "s0" "hello" none "rep" jan1_2025).1.travel_details
      = some emptyDetails ∧
    (process_message_step none "s0" "hello" none "rep" jan1_2025).1.missing_info
      = defaultMissing :=
  (C6_amended_oracle_failure none "s0" "hello" "rep" jan1_2025).1 rfl

/-! ## Claim C7 -/

/-- Claim C7, counterexample: with `trip_length_days` absent the generator
produces pairs spanning 3 days, not 7 (the `or 7` default lives only in the
separate LLM-prompt constraints builder of query_generator.py, which is not on
this code path). -/
theorem C7_counterexample :
    ((generate_date_options plainIntent jan1_2025).map (fun p => p.2 - p.1))
      = [3, 3, 3, 3, 3] ∧ (3 : Int) ≠ 7 := by
  decide

/-- Claim C7, amended: for every intent with `trip_length_days` absent,
`generate_date_options` uses the default trip length of 3 days, so every
generated pair spans exactly 3 days. -/
theorem C7_amended_default3 (details : TravelQueryDetails) (today : YMD)
    (h : details.trip_length_days = none) :
    pairsSpan 3 (generate_date_options details today) := by
  intro p hp
  unfold generate_date_options at hp
  rw [h] at hp
  by_cases hb : optStrTruthy details.specific_month = true
  · rw [if_pos hb] at hp
    rcases hpm : parseMonth (details.specific_month.getD "") with _ | mn
    · rw [hpm] at hp; simp at hp
    · rw [hpm] at hp
      obtain ⟨-, hspan, -⟩ := month_loop_mem _ _ _ _ _ p hp
      simp only [natOrDefault] at hspan
      omega
  · rw [if_neg hb] at hp
    rw [show (details.earliest_start_date.isSome && optNatTruthy none) = false by
      simp [optNatTruthy]] at hp
    simp only [Bool.false_eq_true, if_false] at hp
    obtain ⟨i, hi, rfl⟩ := List.mem_map.1 hp
    simp only [natOrDefault]
    omega

/-- Claim C7, amended, witness at a concrete intent with no trip length. -/
theorem C7_amended_witness :
    pairsSpan 3 (generate_date_options plainIntent jan1_2025) :=
  C7_amended_default3 plainIntent jan1_2025 rfl

/-! ## Claim C8 -/

/-- Claim C8, counterexample: a session missing only the optional budget, with
queries generated, gets `has_complete_details = false` even though its missing
list contains no critical field — the flag requires the *whole* missing list to
be empty, not just the critical tier. -/
theorem C8_counterexample :
    (process_message_step (some sessionOptionalMissing) "s3" "hi" none "r"
      jan1_2025).2.has_complete_details = false ∧
    (process_message_step (some sessionOptionalMissing) "s3" "hi" none "r"
      jan1_2025).1.missing_info = ["budget"] ∧
    ((process_message_step (some sessionOptionalMissing) "s3" "hi" none "r"
      jan1_2025).1.missing_info.filter (fun f => criticalFields.contains f)) = [] ∧
    (process_message_step (some sessionOptionalMissing) "s3" "hi" none "r"
      jan1_2025).1.queries_generated = true := by
  decide

/-- Claim C8, amended: the response's `has_complete_details` flag is true iff
the whole stored missing list (critical and optional fields alike) is empty
and queries have been generated. -/
theorem C8_amended_flag (stored : Option ConversationState) (sid msg : String)
    (oracle : Option QueryParsingResult) (reply : String) (today : YMD) :
    (process_message_step stored sid msg oracle reply today).2.has_complete_details
        = true ↔
    ((process_message_step stored sid msg oracle reply today).1.missing_info = [] ∧
      (process_message_step stored sid msg oracle reply today).1.queries_generated
        = true) := by
  unfold process_message_step mk_response
  simp [Bool.and_eq_true, decide_eq_true_eq]

/-! ## Claim C9 -/

/-- Claim C9, counterexample: with the extracted destination null/empty the
stored `"Paris"` is indeed kept, but `"destination"` is *not* necessarily
absent from the post-merge missing set — a session whose stored list still
contains `"destination"` (the oracle's initial missing list is trusted
wholesale and may disagree with its extracted details) keeps that entry, since
the merge erases it only when the destination field is newly adopted. -/
theorem C9_counterexample :
    (merge_follow_up intentParis ["destination"] emptyDetails).1.destination
      = "Paris" ∧
    "destination" ∈ (merge_follow_up intentParis ["destination"] emptyDetails).2 := by
  decide

/-- Truthiness of every merge-relevant field is preserved from `a` to `b`. -/
abbrev truthyPreserved (a b : TravelQueryDetails) : Prop :=
  (a.destination ≠ "" → b.destination ≠ "") ∧
  (optStrTruthy a.origin = true → optStrTruthy b.origin = true) ∧
  (optNatTruthy a.trip_length_days = true → optNatTruthy b.trip_length_days = true) ∧
  (optStrTruthy a.specific_month = true → optStrTruthy b.specific_month = true) ∧
  (a.earliest_start_date.isSome = true → b.earliest_start_date.isSome = true) ∧
  (optRatTruthy a.budget = true → optRatTruthy b.budget = true)

/-- Truthiness preservation is transitive. -/
lemma truthyPreserved_trans {a b c : TravelQueryDetails}
    (h1 : truthyPreserved a b) (h2 : truthyPreserved b c) : truthyPreserved a c :=
  ⟨fun h => h2.1 (h1.1 h), fun h => h2.2.1 (h1.2.1 h),
   fun h => h2.2.2.1 (h1.2.2.1 h), fun h => h2.2.2.2.1 (h1.2.2.2.1 h),
   fun h => h2.2.2.2.2.1 (h1.2.2.2.2.1 h), fun h => h2.2.2.2.2.2 (h1.2.2.2.2.2 h)⟩

/-- The destination block preserves field truthiness. -/
lemma mergeStepDestination_tp (e : TravelQueryDetails)
    (s : TravelQueryDetails × List String) :
    truthyPreserved s.1 (mergeStepDestination e s).1 := by
  unfold mergeStepDestination
  split
  · rename_i hc
    exact ⟨fun _ => hc.1, fun h => h, fun h => h, fun h => h, fun h => h, fun h => h⟩
  · exact ⟨fun h => h, fun h => h, fun h => h, fun h => h, fun h => h, fun h => h⟩

/-- The origin block preserves field truthiness. -/
lemma mergeStepOrigin_tp (e : TravelQueryDetails)
    (s : TravelQueryDetails × List String) :
    truthyPreserved s.1 (mergeStepOrigin e s).1 := by
  unfold mergeStepOrigin
  split
  · rename_i hc
    exact ⟨fun h => h, fun _ => hc.1, fun h => h, fun h => h, fun h => h, fun h => h⟩
  · exact ⟨fun h => h, fun h => h, fun h => h, fun h => h, fun h => h, fun h => h⟩

/-- The trip-length block preserves field truthiness. -/
lemma mergeStepTripLength_tp (e : TravelQueryDetails)
    (s : TravelQueryDetails × List String) :
    truthyPreserved s.1 (mergeStepTripLength e s).1 := by
  unfold mergeStepTripLength
  split
  · rename_i hc
    exact ⟨fun h => h, fun h => h, fun _ => hc.1, fun h => h, fun h => h, fun h => h⟩
  · exact ⟨fun h => h, fun h => h, fun h => h, fun h => h, fun h => h, fun h => h⟩

/-- The dates block preserves field truthiness. -/
lemma mergeStepDates_tp (e : TravelQueryDetails)
    (s : TravelQueryDetails × List String) :
    truthyPreserved s.1 (mergeStepDates e s).1 := by
  unfold mergeStepDates
  dsimp only
  split_ifs <;>
    refine ⟨fun h => h, fun h => h, fun h => h, ?_, ?_, fun h => h⟩ <;>
    intro h <;> simp_all

/-- The budget block preserves field truthiness. -/
lemma mergeStepBudget_tp (e : TravelQueryDetails)
    (s : TravelQueryDetails × List String) :
    truthyPreserved s.1 (mergeStepBudget e s).1 := by
  unfold mergeStepBudget
  split
  · rename_i hc
    exact ⟨fun h => h, fun h => h, fun h => h, fun h => h, fun h => h, fun _ => hc.1⟩
  · exact ⟨fun h => h, fun h => h, fun h => h, fun h => h, fun h => h, fun h => h⟩

/-- The travelers block preserves field truthiness. -/
lemma mergeStepTravelers_tp (e : TravelQueryDetails)
    (s : TravelQueryDetails × List String) :
    truthyPreserved s.1 (mergeStepTravelers e s).1 := by
  unfold mergeStepTravelers
  split
  · exact ⟨fun h => h, fun h => h, fun h => h, fun h => h, fun h => h, fun h => h⟩
  · exact ⟨fun h => h, fun h => h, fun h => h, fun h => h, fun h => h, fun h => h⟩

/-- The whole follow-up merge preserves field truthiness. -/
lemma merge_follow_up_tp (td : TravelQueryDetails) (missing : List String)
    (e : TravelQueryDetails) : truthyPreserved td (merge_follow_up td missing e).1 := by
  unfold merge_follow_up
  have h1 := mergeStepDestination_tp e (td, missing)
  have h2 := mergeStepOrigin_tp e (mergeStepDestination e (td, missing))
  have h3 := mergeStepTripLength_tp e
    (mergeStepOrigin e (mergeStepDestination e (td, missing)))
  have h4 := mergeStepDates_tp e (mergeStepTripLength e
    (mergeStepOrigin e (mergeStepDestination e (td, missing))))
  have h5 := mergeStepBudget_tp e (mergeStepDates e (mergeStepTripLength e
    (mergeStepOrigin e (mergeStepDestination e (td, missing)))))
  have h6 := mergeStepTravelers_tp e (mergeStepBudget e (mergeStepDates e
    (mergeStepTripLength e (mergeStepOrigin e (mergeStepDestination e (td, missing))))))
  exact truthyPreserved_trans h1 (truthyPreserved_trans h2 (truthyPreserved_trans h3
    (truthyPreserved_trans h4 (truthyPreserved_trans h5 h6))))

/-- A field identifier absent from the stored missing list stays absent. -/
lemma merge_follow_up_not_mem (td : TravelQueryDetails) (missing : List String)
    (e : TravelQueryDetails) (a : String) (h : a ∉ missing) :
    a ∉ (merge_follow_up td missing e).2 :=
  fun hm => h ((merge_follow_up_missing_sublist td missing e).subset hm)

/-- Claim C9, amended: merging never erases previously known information — every
field that is non-null/non-empty before a follow-up merge is still
non-null/non-empty after it (a field is overwritten only with a non-null,
non-empty extracted value); and since the merge never adds missing entries,
`"destination"` is absent from the post-merge missing set whenever it was
absent beforehand (as in Scenario 2, where the destination is known). -/
theorem C9_amended_preservation (td : TravelQueryDetails) (missing : List String)
    (e : TravelQueryDetails) :
    (td.destination ≠ "" → (merge_follow_up td missing e).1.destination ≠ "") ∧
    (optStrTruthy td.origin = true →
      optStrTruthy (merge_follow_up td missing e).1.origin = true) ∧
    (optNatTruthy td.trip_length_days = true →
      optNatTruthy (merge_follow_up td missing e).1.trip_length_days = true) ∧
    (optStrTruthy td.specific_month = true →
      optStrTruthy (merge_follow_up td missing e).1.specific_month = true) ∧
    (td.earliest_start_date.isSome = true →
      (merge_follow_up td missing e).1.earliest_start_date.isSome = true) ∧
    (optRatTruthy td.budget = true →
      optRatTruthy (merge_follow_up td missing e).1.budget = true) ∧
    ("destination" ∉ missing → "destination" ∉ (merge_follow_up td missing e).2) := by
  obtain ⟨p1, p2, p3, p4, p5, p6⟩ := merge_follow_up_tp td missing e
  exact ⟨p1, p2, p3, p4, p5, p6, merge_follow_up_not_mem td missing e "destination"⟩

/-- A fully populated stored intent, for the Claim C9 witness. -/
def richIntent : TravelQueryDetails :=
  { origin := some "Seattle", destination := "Paris", budget := some 800,
    trip_length_days := some 3, earliest_start_date := some 739403,
    specific_month := some "June" }

/-- Claim C9, amended, witness: merging a null extraction into a fully
populated consistent session keeps every field populated and keeps
`"destination"` out of the missing set. -/
theorem C9_amended_witness :
    (merge_follow_up richIntent [] emptyDetails).1.destination ≠ "" ∧
    optStrTruthy (merge_follow_up richIntent [] emptyDetails).1.origin = true ∧
    optNatTruthy (merge_follow_up richIntent [] emptyDetails).1.trip_length_days
      = true ∧
    optStrTruthy (merge_follow_up richIntent [] emptyDetails).1.specific_month
      = true ∧
    (merge_follow_up richIntent [] emptyDetails).1.earliest_start_date.isSome
      = true ∧
    optRatTruthy (merge_follow_up richIntent [] emptyDetails).1.budget = true ∧
    "destination" ∉ (merge_follow_up richIntent [] emptyDetails).2 := by
  obtain ⟨p1, p2, p3, p4, p5, p6, p7⟩ :=
    C9_amended_preservation richIntent [] emptyDetails
  exact ⟨p1 (by decide), p2 (by decide), p3 (by decide), p4 (by decide),
    p5 (by decide), p6 (by decide), p7 (by decide)⟩

/-! ## Claim C10 -/

/-- Claim C10: when the details carry no origin, every flight query built by
`create_flight_search_queries` uses the hardcoded placeholder `"SEA"`. -/
theorem C10_origin_placeholder (details : TravelQueryDetails) (today : YMD)
    (h : details.origin = none) :
    allOriginSEA (create_flight_search_queries details today) := by
  intro q hq
  simp only [create_flight_search_queries, List.mem_map] at hq
  obtain ⟨p, hp, rfl⟩ := hq
  show strOrDefault details.origin "SEA" = "SEA"
  rw [h]
  rfl

/-- Claim C10, witness at a concrete originless intent. -/
theorem C10_witness :
    allOriginSEA (create_flight_search_queries plainIntent jan1_2025) :=
  C10_origin_placeholder plainIntent jan1_2025 rfl

end TravelAssistant
